import Mathlib

/-!
Verification of the SYSLINUX COMBOOT API layer of this repository
(`src/arch/i386/interface/syslinux/comboot_call.c`).

The development shallowly embeds the C file's functions as executable Lean
definitions: physical/user memory is a byte function `Nat → Nat`, the
register file is an explicit structure, external collaborators (console,
image registry, POSIX file layer, resolver, scheduler) are an environment
record of their responses, and every externally visible side effect is
recorded in an event trace.  The unbounded C loops (`shuffle`'s chain
reloads, `strlen_user`, `print_user_string`) take explicit fuel; `none` /
a `diverge` outcome means the fuel ran out, which never happens in the
theorems' instantiated witnesses.
-/

namespace Comboot

/-! ## Physical memory and the shuffle engine (`shuffle`, comboot_call.c lines 98-126) -/

/-- Byte-addressed flat memory (real-mode segment:offset and physical
addresses both map into it). -/
def Mem := Nat → Nat

/-- The reserved address value `0xFFFFFFFF` used by both shuffle sentinels. -/
def sentinel : Nat := 0xFFFFFFFF

/-- One shuffle descriptor.  Modelled from the spec: the struct
`comboot_shuffle_descriptor` lives in `comboot.h`, which is not under
`src/`; the spec's data model writes it as `{ src, dest, len }`, three
32-bit fields. -/
structure Desc where
  src : Nat
  dest : Nat
  len : Nat
deriving DecidableEq, Repr

/-- The value of `sizeof(comboot_shuffle_descriptor)`: three `uint32_t` fields. -/
def descSize : Nat := 12

/-- The call `memset_user(dest_u, 0, 0, len)`: zero `len` bytes starting at `dest`. -/
def memFill (m : Mem) (dest len : Nat) : Mem :=
  fun a => if dest ≤ a ∧ a < dest + len then 0 else m a

/-- The call `memmove_user(dest_u, 0, src_u, 0, len)`: overlap-safe copy; every
byte of the destination region receives the corresponding byte of the
*original* source region. -/
def memMove (m : Mem) (dest src len : Nat) : Mem :=
  fun a => if dest ≤ a ∧ a < dest + len then m (src + (a - dest)) else m a

/-- Read one memory byte. -/
def readByte (m : Mem) (a : Nat) : Nat := m a % 256

/-- Read a little-endian `uint32_t`. -/
def readU32 (m : Mem) (a : Nat) : Nat :=
  readByte m a + 256 * readByte m (a + 1) + 65536 * readByte m (a + 2) +
    16777216 * readByte m (a + 3)

/-- Deserialize one shuffle descriptor from memory. -/
def readDesc (m : Mem) (a : Nat) : Desc :=
  ⟨readU32 m a, readU32 m (a + 4), readU32 m (a + 8)⟩

/-- A `copy_from_user` of `n` descriptors starting at address `a`. -/
def readDescs (m : Mem) : Nat → Nat → List Desc
  | _, 0 => []
  | a, n + 1 => readDesc m a :: readDescs m (a + descSize) n

/-- The three-way dispatch of the loop body (lines 112-124), in the
source's evaluation order: `src == 0xFFFFFFFF` is tested FIRST (zero
fill), `dest == 0xFFFFFFFF` second (chain to a new descriptor list),
otherwise the descriptor is a regular copy. -/
inductive DescKind where
  | fill
  | chain
  | copy
deriving DecidableEq, Repr

/-- Classify a descriptor exactly as the `if`/`else if`/`else` chain of
the loop body does. -/
def descKind (d : Desc) : DescKind :=
  if d.src = sentinel then DescKind.fill
  else if d.dest = sentinel then DescKind.chain
  else DescKind.copy

/-- Run the descriptor loop until the list is exhausted or the first
chain descriptor is reached: returns the memory after the direct
copy/fill effects together with the `(src, len)` of that chain
descriptor, if one was hit.  The chain descriptor itself performs no
memory write. -/
def runList : Mem → List Desc → Mem × Option (Nat × Nat)
  | m, [] => (m, none)
  | m, d :: rest =>
    match descKind d with
    | DescKind.fill => runList (memFill m d.dest d.len) rest
    | DescKind.chain => (m, some (d.src, d.len))
    | DescKind.copy => runList (memMove m d.dest d.src d.len) rest

/-- The full shuffle loop.  On a chain `(src, len)` the count becomes
`len / sizeof(descriptor)`, that many descriptors are re-read from `src`
into the local buffer and iteration restarts from index 0 (`i = -1`
followed by `i++`).  `fuel` bounds the number of chain reloads: the C
loop does not terminate on a cyclic chain, and `none` reports exhausted
fuel. -/
def shuffleGo : Nat → Mem → List Desc → Option Mem
  | 0, m, ds =>
    match runList m ds with
    | (m', none) => some m'
    | (_, some _) => none
  | fuel + 1, m, ds =>
    match runList m ds with
    | (m', none) => some m'
    | (m', some (s, l)) => shuffleGo fuel m' (readDescs m' s (l / descSize))

/-- The conversion `real_to_user(segment, offset)`: real-mode address into flat memory. -/
def flatAddr (seg off : Nat) : Nat := 16 * seg + off

/-- The function `shuffle(list_segment, list_offset, count)`: copy the incoming
descriptor list out of (possibly about-to-be-overwritten) memory, then
run the loop. -/
def shuffle (fuel : Nat) (m : Mem) (seg off count : Nat) : Option Mem :=
  shuffleGo fuel m (readDescs m (flatAddr seg off) count)

/-! ## Claims C1 and C2: sentinel precedence and chain semantics -/

/-- C1, counterexample: a descriptor whose `src` and `dest` are both
sentinels is dispatched to the FILL branch (the loop tests `src` first,
lines 112-115), not to the chain branch as the claim states; and it does
have a direct memory effect (the byte at `dest` is zeroed), which a
chain descriptor never has. -/
theorem c1_counterexample :
    descKind ⟨sentinel, sentinel, 12⟩ = DescKind.fill ∧
    DescKind.fill ≠ DescKind.chain ∧
    (shuffleGo 1 (fun _ => 7) [⟨sentinel, sentinel, 12⟩]).map (fun m => m sentinel) =
      some 0 := by
  refine ⟨rfl, by decide, by decide⟩

/-- C1 (amended): a descriptor whose `src` equals `SENTINEL_FILL` and
whose `dest` simultaneously equals `SENTINEL_CHAIN` is treated as a FILL
descriptor (fill takes precedence), because `src` is tested before
`dest` in the descriptor evaluation order: the loop zeroes `len` bytes
at `dest` and moves on to the next descriptor of the same list. -/
theorem c1_fill_precedence (fuel : Nat) (m : Mem) (d : Desc) (rest : List Desc)
    (hs : d.src = sentinel) (hd : d.dest = sentinel) :
    descKind d = DescKind.fill ∧
    shuffleGo fuel m (d :: rest) = shuffleGo fuel (memFill m d.dest d.len) rest := by
  have hk : descKind d = DescKind.fill := by simp [descKind, hs]
  refine ⟨hk, ?_⟩
  cases fuel <;> simp [shuffleGo, runList, hk]

/-- Witness for `c1_fill_precedence` at a concrete descriptor. -/
theorem c1_fill_precedence_witness :
    (⟨sentinel, sentinel, 8⟩ : Desc).src = sentinel ∧
    (⟨sentinel, sentinel, 8⟩ : Desc).dest = sentinel ∧
    (descKind ⟨sentinel, sentinel, 8⟩ = DescKind.fill ∧
      shuffleGo 0 (fun _ => 3) (⟨sentinel, sentinel, 8⟩ :: []) =
        shuffleGo 0 (memFill (fun _ => 3) (⟨sentinel, sentinel, 8⟩ : Desc).dest
          (⟨sentinel, sentinel, 8⟩ : Desc).len) []) :=
  ⟨rfl, rfl, c1_fill_precedence 0 (fun _ => 3) ⟨sentinel, sentinel, 8⟩ [] rfl rfl⟩

/-- With no chain descriptor in `pre`, the loop processes all of `pre`
directly and stops at the chain descriptor `c`, reporting its
`(src, len)`; the chain descriptor itself contributes no memory write,
and the remaining entries `rest` are never reached. -/
theorem runList_append_chain (m : Mem) (pre : List Desc) (c : Desc) (rest : List Desc)
    (hpre : ∀ d ∈ pre, descKind d ≠ DescKind.chain)
    (hc : descKind c = DescKind.chain) :
    runList m (pre ++ c :: rest) = ((runList m pre).1, some (c.src, c.len)) := by
  induction pre generalizing m with
  | nil => simp [runList, hc]
  | cons d pre ih =>
    have hd : descKind d ≠ DescKind.chain := hpre d (by simp)
    have hpre' : ∀ x ∈ pre, descKind x ≠ DescKind.chain := fun x hx => hpre x (by simp [hx])
    cases hk : descKind d with
    | fill => simp [runList, hk, ih _ hpre']
    | chain => exact absurd hk hd
    | copy => simp [runList, hk, ih _ hpre']

/-- C2: when the running list is a chain-free prefix `pre` followed by a
chain descriptor `c` (dest = `SENTINEL_CHAIN`, src ≠ `SENTINEL_FILL`)
and then `rest`, the loop processes exactly `pre`, sets the descriptor
count to `c.len / sizeof(descriptor)`, re-reads that many descriptors
from `c.src` out of the *current* memory, and resumes iteration from
index 0 of the new list: the total effect is the effect of `pre`
followed by the replacement list, the chain entry contributing no direct
copy or fill effect and `rest` being discarded. -/
theorem c2_chain_restarts (fuel : Nat) (m : Mem) (pre : List Desc) (c : Desc)
    (rest : List Desc)
    (hpre : ∀ d ∈ pre, descKind d ≠ DescKind.chain)
    (hcs : c.src ≠ sentinel) (hcd : c.dest = sentinel) :
    shuffleGo (fuel + 1) m (pre ++ c :: rest) =
      shuffleGo fuel (runList m pre).1
        (readDescs (runList m pre).1 c.src (c.len / descSize)) := by
  have hc : descKind c = DescKind.chain := by simp [descKind, hcs, hcd]
  simp [shuffleGo, runList_append_chain m pre c rest hpre hc]

/-- Witness for `c2_chain_restarts` at a concrete list: one fill
descriptor followed by a chain descriptor. -/
theorem c2_chain_restarts_witness :
    (∀ d ∈ [(⟨sentinel, 0, 0⟩ : Desc)], descKind d ≠ DescKind.chain) ∧
    (⟨500, sentinel, 12⟩ : Desc).src ≠ sentinel ∧
    (⟨500, sentinel, 12⟩ : Desc).dest = sentinel ∧
    shuffleGo 1 (fun _ => 0) ([⟨sentinel, 0, 0⟩] ++ (⟨500, sentinel, 12⟩ : Desc) :: []) =
      shuffleGo 0 (runList (fun _ => 0) [⟨sentinel, 0, 0⟩]).1
        (readDescs (runList (fun _ => 0) [⟨sentinel, 0, 0⟩]).1 500 (12 / descSize)) :=
  ⟨by decide, by decide, rfl,
    c2_chain_restarts 0 (fun _ => 0) [⟨sentinel, 0, 0⟩] ⟨500, sentinel, 12⟩ []
      (by decide) (by decide) rfl⟩

/-! ## Register/flags context (`struct i386_all_regs`) -/

/-- The mutable register/flags view a handler receives.  Segment
registers `ds`/`es` are kept as raw values; `flags` is the flags word
whose bit 0 is the carry flag. -/
structure I386Regs where
  eax : Nat
  ebx : Nat
  ecx : Nat
  edx : Nat
  esi : Nat
  edi : Nat
  ebp : Nat
  ds : Nat
  es : Nat
  flags : Nat
deriving DecidableEq, Repr

/-- The carry bit of the flags word. -/
def CF : Nat := 1

/-- The statement `ix86->flags |= CF`. -/
def setCF (r : I386Regs) : I386Regs := { r with flags := r.flags ||| CF }

/-- The statement `ix86->flags &= ~CF`: clear bit 0 of the flags word. -/
def clearCF (r : I386Regs) : I386Regs := { r with flags := r.flags - r.flags % 2 }

def ah (r : I386Regs) : Nat := r.eax / 256 % 256
def al (r : I386Regs) : Nat := r.eax % 256
def ax (r : I386Regs) : Nat := r.eax % 65536
def bx (r : I386Regs) : Nat := r.ebx % 65536
def cx (r : I386Regs) : Nat := r.ecx % 65536
def dx (r : I386Regs) : Nat := r.edx % 65536
def dl (r : I386Regs) : Nat := r.edx % 256
def si (r : I386Regs) : Nat := r.esi % 65536
def di (r : I386Regs) : Nat := r.edi % 65536

def setAl (r : I386Regs) (v : Nat) : I386Regs :=
  { r with eax := r.eax / 256 * 256 + v % 256 }
def setAx (r : I386Regs) (v : Nat) : I386Regs :=
  { r with eax := r.eax / 65536 * 65536 + v % 65536 }
def setCl (r : I386Regs) (v : Nat) : I386Regs :=
  { r with ecx := r.ecx / 256 * 256 + v % 256 }
def setCh (r : I386Regs) (v : Nat) : I386Regs :=
  { r with ecx := r.ecx / 65536 * 65536 + v % 256 * 256 + r.ecx % 256 }
def setDl (r : I386Regs) (v : Nat) : I386Regs :=
  { r with edx := r.edx / 256 * 256 + v % 256 }
def setBx (r : I386Regs) (v : Nat) : I386Regs :=
  { r with ebx := r.ebx / 65536 * 65536 + v % 65536 }
def setCx (r : I386Regs) (v : Nat) : I386Regs :=
  { r with ecx := r.ecx / 65536 * 65536 + v % 65536 }
def setDx (r : I386Regs) (v : Nat) : I386Regs :=
  { r with edx := r.edx / 65536 * 65536 + v % 65536 }
def setSi (r : I386Regs) (v : Nat) : I386Regs :=
  { r with esi := r.esi / 65536 * 65536 + v % 65536 }
def setDi (r : I386Regs) (v : Nat) : I386Regs :=
  { r with edi := r.edi / 65536 * 65536 + v % 65536 }
def setEax (r : I386Regs) (v : Nat) : I386Regs :=
  { r with eax := v % 4294967296 }
def setEcx (r : I386Regs) (v : Nat) : I386Regs :=
  { r with ecx := v % 4294967296 }
def setEs (r : I386Regs) (v : Nat) : I386Regs :=
  { r with es := v % 65536 }

/-! ## Session state, environment, events and outcomes -/

/-- Tagged outcome of a COMBOOT module run.  Modelled from the spec:
the numeric values `COMBOOT_EXIT`, `COMBOOT_EXIT_COMMAND` and
`COMBOOT_EXIT_RUN_KERNEL` live in `comboot.h`, which is not under
`src/`; the spec's Exit Result is exactly this three-way tag. -/
inductive ExitCode where
  | terminated
  | terminatedAfterCommand
  | terminatedToReplacementKernel
deriving DecidableEq, Repr

/-- One externally visible side effect of a handler (a call into one of
the consumed services). -/
inductive Event where
  | putchar (c : Nat)
  | serialPutc (c : Nat)
  | runShellCommand (cmd : List Nat)
  | shutdownBoot
  | shuffleRun (seg off count : Nat)
  | openFile (path : List Nat)
  | closeFile (fd : Nat)
  | selectWait (fd : Nat)
  | readFile (fd : Nat) (len : Nat)
  | resolveHost (name : List Nat)
  | pxeApiCall
  | schedStep
  | videoModeSet (vesa : Bool)
  | imgFetchInitrd (path : List Nat)
  | imgFetchKernel (path : List Nat) (cmdlineAtFetch : List Nat)
  | imageSetCmdline (cmdline : List Nat)
deriving DecidableEq, Repr

/-- Process-wide session state: `comboot_graphics_mode` and
`comboot_replacement_image` (the latter as an optional image id). -/
structure Session where
  graphicsMode : Nat
  replacement : Option Nat
deriving DecidableEq, Repr

/-- Responses of the image registry for one `comboot_fetch_kernel` run:
whether each `alloc_image` succeeds, the return codes of the two
`imgfetch` calls and of `image_set_cmdline`, and the id of the fetched
kernel image. -/
structure FetchEnv where
  allocInitrdOk : Bool
  fetchInitrdRc : Int
  allocKernelOk : Bool
  fetchKernelRc : Int
  setCmdlineRc : Int
  kernelId : Nat
deriving DecidableEq, Repr

/-- Responses of all external collaborators consumed by the handlers. -/
structure Env where
  mem : Nat → Nat
  consoleIn : List Nat
  keyReady : Bool
  openResult : Int
  fsizeResult : Nat
  readResult : Int
  resolvAddr : Nat
  fetch : FetchEnv

/-- How one handler invocation ends: a normal return with the mutated
registers, a `longjmp` to the module's invoker with an exit code, the
non-returning real-mode jump of Cleanup-Shuffle-Boot, or fuel
exhaustion of one of the unbounded string loops. -/
inductive Outcome where
  | ret (r : I386Regs)
  | exit (code : ExitCode)
  | boot (ds ebp ebx esi : Nat)
  | diverge
deriving DecidableEq, Repr

/-- Result of one handler invocation: outcome, final session state, the
trace of external effects, and whether every `assert` held. -/
structure HRes where
  out : Outcome
  sess : Session
  events : List Event
  assertOk : Bool
deriving DecidableEq, Repr

/-! ## Constants from headers outside src/ -/

/-- Modelled from the spec: the fixed shuffle-descriptor capacity
`COMBOOT_MAX_SHUFFLE_DESCRIPTORS` is defined in `comboot.h`, which is
not under `src/`; every claim below depends only on it being a fixed
constant advertised to callers. -/
def COMBOOT_MAX_SHUFFLE_DESCRIPTORS : Nat := 682

/-- Modelled from the spec: the fixed I/O block size returned by Open
File (`comboot.h`, not under `src/`). -/
def COMBOOT_FILE_BLOCKSZ : Nat := 512

/-- Modelled from the spec: the loader-identity byte
(`bzimage.h`, not under `src/`); its exact value is immaterial here. -/
def BZI_LOADER_TYPE_GPXE : Nat := 0x10

/-- Modelled from the spec: standard-VGA graphics-mode bit of
`comboot_graphics_mode` (`comboot.h`, not under `src/`). -/
def COMBOOT_VIDEO_GRAPHICS : Nat := 0x01

/-- Modelled from the spec: VESA graphics-mode bit of
`comboot_graphics_mode` (`comboot.h`, not under `src/`). -/
def COMBOOT_VIDEO_VESA : Nat := 0x04

/-- Modelled from the spec: the real-mode data segment and the
link-time addresses of the static data16 strings; exact values are
link-time artifacts not present in `src/`. -/
def rm_ds : Nat := 0x7000

def addr_syslinux_version : Nat := 0x100
def addr_syslinux_copyright : Nat := 0x120
def addr_syslinux_configuration_file : Nat := 0x140
def addr_comboot_feature_flags : Nat := 0x150

/-! ## String primitives over user memory -/

/-- The loop `strlen_user`: length of the zero-terminated string at address `a`,
bounded by fuel (`none` = no terminator found within fuel). -/
def strlenU : Nat → (Nat → Nat) → Nat → Option Nat
  | 0, _, _ => none
  | fuel + 1, mem, a =>
    if mem a % 256 = 0 then some 0
    else (strlenU fuel mem (a + 1)).map (· + 1)

/-- The function `print_user_string` (lines 82-92): the characters emitted before
the terminator byte, bounded by fuel. -/
def printUserString : Nat → (Nat → Nat) → Nat → Nat → Option (List Nat)
  | 0, _, _, _ => none
  | fuel + 1, mem, a, term =>
    let c := mem a % 256
    if c = term then some []
    else (printUserString fuel mem (a + 1) term).map (c :: ·)

/-- A `copy_from_user` of `n` raw bytes starting at address `a`. -/
def readMemList (mem : Nat → Nat) (a n : Nat) : List Nat :=
  (List.range n).map (fun k => mem (a + k) % 256)

/-- The C string held in a byte buffer: the bytes before the first NUL. -/
def cStr (l : List Nat) : List Nat := l.takeWhile (fun c => c != 0)

/-- The search `strstr`: index of the first occurrence of `needle` in the string. -/
def strstrIdx (needle : List Nat) : List Nat → Option Nat
  | [] => if needle.isEmpty then some 0 else none
  | h :: t =>
    if needle.isPrefixOf (h :: t) then some 0
    else (strstrIdx needle t).map (· + 1)

/-- The search `strchr` from position `p` on: index of the first byte `b` at or
after `p`. -/
def strchrIdx (b : Nat) (l : List Nat) (p : Nat) : Option Nat :=
  ((l.drop p).findIdx? (fun c => c == b)).map (· + p)

/-- The magnitude of `-ENOMEM` (`errno.h`, outside src/; only `≠ 0` matters). -/
def enomem : Int := 12

/-- The bytes of the literal `"initrd="`. -/
def initrdTag : List Nat := [105, 110, 105, 116, 114, 100, 61]

/-! ## `comboot_fetch_kernel` (lines 159-231) -/

/-- Result of one `comboot_fetch_kernel` run: the returned `rc`, the
final contents of the caller's command-line buffer, the
`comboot_replacement_image` value afterwards, whether the
`assert ( comboot_replacement_image == NULL )` held, and the image
registry calls made. -/
structure FetchRes where
  rc : Int
  buffer : List Nat
  replacement : Option Nat
  assertOk : Bool
  events : List Event
deriving DecidableEq, Repr

/-- The kernel half of `comboot_fetch_kernel` (lines 198-230): entered
after the optional initrd handling, with the command-line buffer as it
stands at that point.  Allocates and fetches the kernel, attaches the
command line, and on full success stores the kernel as the replacement
image after asserting the field was empty. -/
def comboot_fetch_kernel_tail (env : FetchEnv) (repl : Option Nat)
    (kernel_file buf : List Nat) (evs : List Event) : FetchRes :=
  if env.allocKernelOk = false then
    ⟨-enomem, buf, repl, true, evs⟩
  else
    let evs1 := evs ++ [Event.imgFetchKernel (cStr kernel_file) buf]
    if env.fetchKernelRc ≠ 0 then
      ⟨env.fetchKernelRc, buf, repl, true, evs1⟩
    else
      let evs2 := evs1 ++ [Event.imageSetCmdline (cStr buf)]
      if env.setCmdlineRc ≠ 0 then
        ⟨env.setCmdlineRc, buf, repl, true, evs2⟩
      else
        ⟨0, buf, some env.kernelId, repl.isNone, evs2⟩

/-- The function `comboot_fetch_kernel ( kernel_file, cmdline )`: look for an
`initrd=` token in the command line; if found, temporarily replace the
terminating space (if any) with NUL, fetch the initrd under the
extracted name, and restore the space only after a successful initrd
fetch (the failure `goto out` paths skip the restore, exactly as in the
source); then proceed to the kernel half. -/
def comboot_fetch_kernel (env : FetchEnv) (repl : Option Nat)
    (kernel_file cmdline : List Nat) : FetchRes :=
  match strstrIdx initrdTag cmdline with
  | none => comboot_fetch_kernel_tail env repl kernel_file cmdline []
  | some idx =>
    let start := idx + 7
    match strchrIdx 32 cmdline start with
    | some j =>
      let buf1 := cmdline.set j 0
      let ifile := cStr (buf1.drop start)
      if env.allocInitrdOk = false then ⟨-enomem, buf1, repl, true, []⟩
      else if env.fetchInitrdRc ≠ 0 then
        ⟨env.fetchInitrdRc, buf1, repl, true, [Event.imgFetchInitrd ifile]⟩
      else
        comboot_fetch_kernel_tail env repl kernel_file (buf1.set j 32)
          [Event.imgFetchInitrd ifile]
    | none =>
      let ifile := cStr (cmdline.drop start)
      if env.allocInitrdOk = false then ⟨-enomem, cmdline, repl, true, []⟩
      else if env.fetchInitrdRc ≠ 0 then
        ⟨env.fetchInitrdRc, cmdline, repl, true, [Event.imgFetchInitrd ifile]⟩
      else
        comboot_fetch_kernel_tail env repl kernel_file cmdline
          [Event.imgFetchInitrd ifile]

/-! ## The interrupt handlers -/

/-- Handler `int20` (lines 237-239): terminate program. -/
def int20 (s : Session) : HRes :=
  ⟨Outcome.exit ExitCode.terminated, s, [], true⟩

/-- Declared capacity of the local buffer in the resolve-hostname case
of `int22`: `char hostname[len]` (line 473). -/
def hostnameBufCapacity (len : Nat) : Nat := len

/-- Number of bytes `copy_from_user ( hostname, hostname_u, 0, len + 1 )`
writes into that buffer (line 476): the string plus its terminator. -/
def hostnameCopyLen (len : Nat) : Nat := len + 1

/-- Handler `int21` (lines 245-306), the DOS-compatible API: carry is set
pessimistically on entry and cleared only on the success path of each
recognized sub-function. -/
def int21 (fuel : Nat) (env : Env) (s : Session) (r0 : I386Regs) : HRes :=
  let r := setCF r0
  if ah r = 0x00 ∨ ah r = 0x4C then
    ⟨Outcome.exit ExitCode.terminated, s, [], true⟩
  else if ah r = 0x01 ∨ ah r = 0x08 then
    let r1 := setAl r (env.consoleIn.headD 0)
    let r2 := if al r1 = 0x0A then setAl r1 0x0D else r1
    let evs := if ah r2 = 0x01 then [Event.putchar (al r2)] else []
    ⟨Outcome.ret (clearCF r2), s, evs, true⟩
  else if ah r = 0x02 then
    ⟨Outcome.ret (clearCF r), s, [Event.putchar (dl r)], true⟩
  else if ah r = 0x04 then
    ⟨Outcome.ret (clearCF r), s, [Event.serialPutc (dl r)], true⟩
  else if ah r = 0x09 then
    match printUserString fuel env.mem (flatAddr r.ds (dx r)) 0x24 with
    | none => ⟨Outcome.diverge, s, [], true⟩
    | some cs => ⟨Outcome.ret (clearCF r), s, cs.map Event.putchar, true⟩
  else if ah r = 0x0B then
    ⟨Outcome.ret (clearCF (setAl r (if env.keyReady then 0xFF else 0x00))), s, [], true⟩
  else if ah r = 0x30 then
    let r1 := { r with eax := 0x59530000 }
    let r2 := { r1 with ebx := 0x4C530000 }
    let r3 := { r2 with ecx := 0x4E490000 }
    let r4 := { r3 with edx := 0x58550000 }
    ⟨Outcome.ret (clearCF r4), s, [], true⟩
  else
    ⟨Outcome.ret r, s, [], true⟩

/-- Handler `int22` (lines 312-576), the SYSLINUX extension API: carry is set
pessimistically on entry and cleared only on the success path of each
recognized sub-function. -/
def int22 (fuel : Nat) (env : Env) (s : Session) (r0 : I386Regs) : HRes :=
  let r := setCF r0
  if ax r = 0x0001 then
    let r1 := setAx r 0x0018
    let r2 := setCl (setCh r1 0) 0
    let r3 := setDl r2 BZI_LOADER_TYPE_GPXE
    let r4 := setDi (setSi (setEs r3 rm_ds) addr_syslinux_version)
      addr_syslinux_copyright
    ⟨Outcome.ret (clearCF r4), s, [], true⟩
  else if ax r = 0x0002 then
    match printUserString fuel env.mem (flatAddr r.es (bx r)) 0 with
    | none => ⟨Outcome.diverge, s, [], true⟩
    | some cs => ⟨Outcome.ret (clearCF r), s, cs.map Event.putchar, true⟩
  else if ax r = 0x0003 then
    match strlenU fuel env.mem (flatAddr r.es (bx r)) with
    | none => ⟨Outcome.diverge, s, [], true⟩
    | some len =>
      let cmd := cStr (readMemList env.mem (flatAddr r.es (bx r)) (len + 1))
      ⟨Outcome.exit ExitCode.terminatedAfterCommand, s,
        [Event.runShellCommand cmd], true⟩
  else if ax r = 0x0004 then
    ⟨Outcome.exit ExitCode.terminatedAfterCommand, s, [], true⟩
  else if ax r = 0x0005 then
    let evs :=
      if s.graphicsMode &&& COMBOOT_VIDEO_VESA ≠ 0 then [Event.videoModeSet true]
      else if s.graphicsMode &&& COMBOOT_VIDEO_GRAPHICS ≠ 0 then
        [Event.videoModeSet false]
      else []
    ⟨Outcome.ret (clearCF r), { s with graphicsMode := 0 }, evs, true⟩
  else if ax r = 0x0006 then
    match strlenU fuel env.mem (flatAddr r.es (si r)) with
    | none => ⟨Outcome.diverge, s, [], true⟩
    | some len =>
      let file := readMemList env.mem (flatAddr r.es (si r)) (len + 1)
      if file.headD 0 = 0 then ⟨Outcome.ret r, s, [], true⟩
      else
        let evs := [Event.openFile (cStr file)]
        if env.openResult < 0 then ⟨Outcome.ret r, s, evs, true⟩
        else
          let r1 := setSi r (env.openResult.toNat % 65536)
          let r2 := setEax (setCx r1 COMBOOT_FILE_BLOCKSZ) env.fsizeResult
          ⟨Outcome.ret (clearCF r2), s, evs, true⟩
  else if ax r = 0x0007 then
    let fd := si r
    let len := cx r * COMBOOT_FILE_BLOCKSZ
    let evs := [Event.selectWait fd, Event.readFile fd len]
    if env.readResult < 0 then
      ⟨Outcome.ret (setSi r 0), s, evs, true⟩
    else
      ⟨Outcome.ret (clearCF (setEcx r env.readResult.toNat)), s, evs, true⟩
  else if ax r = 0x0008 then
    ⟨Outcome.ret (clearCF r), s, [Event.closeFile (si r)], true⟩
  else if ax r = 0x0009 then
    ⟨Outcome.ret (clearCF r), s, [Event.pxeApiCall], true⟩
  else if ax r = 0x000A then
    ⟨Outcome.ret (clearCF (setAl r BZI_LOADER_TYPE_GPXE)), s, [], true⟩
  else if ax r = 0x000B then
    ⟨Outcome.ret (clearCF (setDx r 0)), s, [], true⟩
  else if ax r = 0x000E then
    ⟨Outcome.ret (clearCF (setBx (setEs r rm_ds)
      addr_syslinux_configuration_file)), s, [], true⟩
  else if ax r = 0x000F then
    ⟨Outcome.ret (clearCF (setBx (setEs (setCx r 0) 0) 0)), s, [], true⟩
  else if ax r = 0x0010 then
    match strlenU fuel env.mem (flatAddr r.es (bx r)) with
    | none => ⟨Outcome.diverge, s, [], true⟩
    | some len =>
      let hostname := readMemList env.mem (flatAddr r.es (bx r)) (hostnameCopyLen len)
      ⟨Outcome.ret (clearCF (setEax r env.resolvAddr)), s,
        [Event.resolveHost (cStr hostname)], true⟩
  else if ax r = 0x0011 then
    ⟨Outcome.ret (clearCF (setCx r COMBOOT_MAX_SHUFFLE_DESCRIPTORS)), s, [], true⟩
  else if ax r = 0x0012 then
    if cx r > COMBOOT_MAX_SHUFFLE_DESCRIPTORS then
      ⟨Outcome.ret r, s, [], true⟩
    else
      ⟨Outcome.boot r.ds r.ebp r.ebx r.esi, s,
        [Event.shutdownBoot, Event.shuffleRun r.es (di r) (cx r)], true⟩
  else if ax r = 0x0013 then
    ⟨Outcome.ret (clearCF r), s, [Event.schedStep], true⟩
  else if ax r = 0x0015 then
    ⟨Outcome.ret (clearCF (setCx (setBx (setEs r rm_ds)
      addr_comboot_feature_flags) 1)), s, [], true⟩
  else if ax r = 0x0016 then
    match strlenU fuel env.mem (flatAddr r.ds (si r)),
        strlenU fuel env.mem (flatAddr r.es (bx r)) with
    | some flen, some clen =>
      let file := cStr (readMemList env.mem (flatAddr r.ds (si r)) (flen + 1))
      let cmd := cStr (readMemList env.mem (flatAddr r.es (bx r)) (clen + 1))
      let res := comboot_fetch_kernel env.fetch s.replacement file cmd
      ⟨Outcome.exit ExitCode.terminatedToReplacementKernel,
        { s with replacement := res.replacement }, res.events, res.assertOk⟩
    | _, _ => ⟨Outcome.diverge, s, [], true⟩
  else if ax r = 0x0017 then
    ⟨Outcome.ret (clearCF r), { s with graphicsMode := bx r }, [], true⟩
  else if ax r = 0x0018 then
    ⟨Outcome.ret (clearCF (setBx (setEs (setAl r 0) 0) 0)), s, [], true⟩
  else
    ⟨Outcome.ret r, s, [], true⟩

/-- The sub-function selectors recognized by `int21` (its case labels). -/
def int21Recognized : List Nat := [0x00, 0x4C, 0x01, 0x08, 0x02, 0x04, 0x09, 0x0B, 0x30]

/-- The sub-function selectors recognized by `int22` (its case labels). -/
def int22Recognized : List Nat :=
  [0x0001, 0x0002, 0x0003, 0x0004, 0x0005, 0x0006, 0x0007, 0x0008, 0x0009,
   0x000A, 0x000B, 0x000E, 0x000F, 0x0010, 0x0011, 0x0012, 0x0013, 0x0015,
   0x0016, 0x0017, 0x0018]

/-! ## Register accessor lemmas -/

@[simp] theorem ah_setCF (r : I386Regs) : ah (setCF r) = ah r := rfl
@[simp] theorem al_setCF (r : I386Regs) : al (setCF r) = al r := rfl
@[simp] theorem ax_setCF (r : I386Regs) : ax (setCF r) = ax r := rfl
@[simp] theorem bx_setCF (r : I386Regs) : bx (setCF r) = bx r := rfl
@[simp] theorem cx_setCF (r : I386Regs) : cx (setCF r) = cx r := rfl
@[simp] theorem dx_setCF (r : I386Regs) : dx (setCF r) = dx r := rfl
@[simp] theorem dl_setCF (r : I386Regs) : dl (setCF r) = dl r := rfl
@[simp] theorem si_setCF (r : I386Regs) : si (setCF r) = si r := rfl
@[simp] theorem di_setCF (r : I386Regs) : di (setCF r) = di r := rfl
@[simp] theorem ds_setCF (r : I386Regs) : (setCF r).ds = r.ds := rfl
@[simp] theorem es_setCF (r : I386Regs) : (setCF r).es = r.es := rfl

@[simp] theorem al_setAl (r : I386Regs) (v : Nat) : al (setAl r v) = v % 256 := by
  show (r.eax / 256 * 256 + v % 256) % 256 = v % 256
  omega

@[simp] theorem ah_setAl (r : I386Regs) (v : Nat) : ah (setAl r v) = ah r := by
  show (r.eax / 256 * 256 + v % 256) / 256 % 256 = r.eax / 256 % 256
  omega

@[simp] theorem al_clearCF (r : I386Regs) : al (clearCF r) = al r := rfl

/-! ## Claim C3: over-long shuffle list is rejected before shutdown -/

/-- C3: a Cleanup-Shuffle-Boot request whose descriptor count exceeds
`COMBOOT_MAX_SHUFFLE_DESCRIPTORS` returns with the carry flag left set
(set pessimistically on entry, never cleared), with no shutdown event,
no shuffle memory operation, no jump, the session untouched and every
register other than the carry bit exactly as on entry. -/
theorem c3_shuffle_count_rejected (fuel : Nat) (env : Env) (s : Session)
    (r0 : I386Regs) (hax : ax r0 = 0x0012)
    (hcx : cx r0 > COMBOOT_MAX_SHUFFLE_DESCRIPTORS) :
    int22 fuel env s r0 = ⟨Outcome.ret (setCF r0), s, [], true⟩ := by
  simp [int22, hax, hcx]

/-- Witness for `c3_shuffle_count_rejected`: `CX = 700 > 682`. -/
theorem c3_shuffle_count_rejected_witness :
    ax ⟨0x0012, 0, 700, 0, 0, 0, 0, 0, 0, 0⟩ = 0x0012 ∧
    cx ⟨0x0012, 0, 700, 0, 0, 0, 0, 0, 0, 0⟩ > COMBOOT_MAX_SHUFFLE_DESCRIPTORS ∧
    int22 1 ⟨fun _ => 0, [], false, 0, 0, 0, 0, ⟨true, 0, true, 0, 0, 0⟩⟩ ⟨0, none⟩
        ⟨0x0012, 0, 700, 0, 0, 0, 0, 0, 0, 0⟩ =
      ⟨Outcome.ret (setCF ⟨0x0012, 0, 700, 0, 0, 0, 0, 0, 0, 0⟩), ⟨0, none⟩, [], true⟩ :=
  ⟨rfl, by decide,
    c3_shuffle_count_rejected 1 ⟨fun _ => 0, [], false, 0, 0, 0, 0, ⟨true, 0, true, 0, 0, 0⟩⟩
      ⟨0, none⟩ ⟨0x0012, 0, 700, 0, 0, 0, 0, 0, 0, 0⟩ rfl (by decide)⟩

/-! ## Claim C4: Run Kernel Image never returns normally -/

/-- C4: whenever the two argument strings of Run Kernel Image are
readable (their `strlen_user` loops terminate within fuel), the handler
ends in a `longjmp` with `TerminatedToReplacementKernel` — for every
environment, hence whether the kernel/initrd fetch succeeded or failed;
it never returns normally to the COMBOOT caller. -/
theorem c4_run_kernel_always_exits (fuel : Nat) (env : Env) (s : Session)
    (r0 : I386Regs) (hax : ax r0 = 0x0016)
    (hf : (strlenU fuel env.mem (flatAddr r0.ds (si r0))).isSome = true)
    (hc : (strlenU fuel env.mem (flatAddr r0.es (bx r0))).isSome = true) :
    (int22 fuel env s r0).out = Outcome.exit ExitCode.terminatedToReplacementKernel := by
  obtain ⟨flen, hflen⟩ := Option.isSome_iff_exists.mp hf
  obtain ⟨clen, hclen⟩ := Option.isSome_iff_exists.mp hc
  simp [int22, hax, hflen, hclen]

/-- Witness for `c4_run_kernel_always_exits`: empty path and command
line, an environment in which every fetch fails. -/
theorem c4_run_kernel_always_exits_witness :
    ax ⟨0x0016, 0, 0, 0, 0, 0, 0, 0, 0, 0⟩ = 0x0016 ∧
    (strlenU 1 (fun _ => 0) (flatAddr 0 0)).isSome = true ∧
    (int22 1 ⟨fun _ => 0, [], false, 0, 0, 0, 0, ⟨false, 1, false, 1, 1, 0⟩⟩ ⟨0, none⟩
        ⟨0x0016, 0, 0, 0, 0, 0, 0, 0, 0, 0⟩).out =
      Outcome.exit ExitCode.terminatedToReplacementKernel :=
  ⟨rfl, by decide,
    c4_run_kernel_always_exits 1 ⟨fun _ => 0, [], false, 0, 0, 0, 0, ⟨false, 1, false, 1, 1, 0⟩⟩
      ⟨0, none⟩ ⟨0x0016, 0, 0, 0, 0, 0, 0, 0, 0, 0⟩ rfl (by decide) (by decide)⟩

/-! ## Claim C7: unrecognized selectors are inert -/

/-- C7: for every sub-function selector outside `int21`'s recognized
set, and likewise for every selector outside `int22`'s recognized set,
the handler returns with the carry flag set (pessimistic default, never
cleared) and no other effect: every other register bit, the session
state and the event trace are exactly as on entry. -/
theorem c7_unrecognized_inert :
    (∀ (fuel : Nat) (env : Env) (s : Session) (r0 : I386Regs),
      ah r0 ∉ int21Recognized →
        int21 fuel env s r0 = ⟨Outcome.ret (setCF r0), s, [], true⟩) ∧
    (∀ (fuel : Nat) (env : Env) (s : Session) (r0 : I386Regs),
      ax r0 ∉ int22Recognized →
        int22 fuel env s r0 = ⟨Outcome.ret (setCF r0), s, [], true⟩) := by
  constructor
  · intro fuel env s r0 h
    simp only [int21Recognized, List.mem_cons, List.mem_singleton, not_or] at h
    obtain ⟨h1, h2, h3, h4, h5, h6, h7, h8, h9, -⟩ := h
    simp [int21, h1, h2, h3, h4, h5, h6, h7, h8, h9]
  · intro fuel env s r0 h
    simp only [int22Recognized, List.mem_cons, List.mem_singleton, not_or] at h
    obtain ⟨g1, g2, g3, g4, g5, g6, g7, g8, g9, g10, g11, g12, g13, g14, g15,
      g16, g17, g18, g19, g20, g21, -⟩ := h
    simp [int22, g1, g2, g3, g4, g5, g6, g7, g8, g9, g10, g11, g12, g13, g14,
      g15, g16, g17, g18, g19, g20, g21]

/-- Witness for `c7_unrecognized_inert`: `AH = 0x42` for `int21` and
`AX = 0x0042` for `int22`, both unrecognized. -/
theorem c7_unrecognized_inert_witness :
    ah ⟨0x4200, 0, 0, 0, 0, 0, 0, 0, 0, 0⟩ ∉ int21Recognized ∧
    ax ⟨0x0042, 0, 0, 0, 0, 0, 0, 0, 0, 0⟩ ∉ int22Recognized ∧
    int21 1 ⟨fun _ => 0, [], false, 0, 0, 0, 0, ⟨true, 0, true, 0, 0, 0⟩⟩ ⟨0, none⟩
        ⟨0x4200, 0, 0, 0, 0, 0, 0, 0, 0, 0⟩ =
      ⟨Outcome.ret (setCF ⟨0x4200, 0, 0, 0, 0, 0, 0, 0, 0, 0⟩), ⟨0, none⟩, [], true⟩ ∧
    int22 1 ⟨fun _ => 0, [], false, 0, 0, 0, 0, ⟨true, 0, true, 0, 0, 0⟩⟩ ⟨0, none⟩
        ⟨0x0042, 0, 0, 0, 0, 0, 0, 0, 0, 0⟩ =
      ⟨Outcome.ret (setCF ⟨0x0042, 0, 0, 0, 0, 0, 0, 0, 0, 0⟩), ⟨0, none⟩, [], true⟩ :=
  ⟨by decide, by decide,
    c7_unrecognized_inert.1 1 ⟨fun _ => 0, [], false, 0, 0, 0, 0, ⟨true, 0, true, 0, 0, 0⟩⟩
      ⟨0, none⟩ ⟨0x4200, 0, 0, 0, 0, 0, 0, 0, 0, 0⟩ (by decide),
    c7_unrecognized_inert.2 1 ⟨fun _ => 0, [], false, 0, 0, 0, 0, ⟨true, 0, true, 0, 0, 0⟩⟩
      ⟨0, none⟩ ⟨0x0042, 0, 0, 0, 0, 0, 0, 0, 0, 0⟩ (by decide)⟩

/-! ## Claim C8: line feed is normalized to carriage return -/

/-- C8: a Get Key call (with echo, `AH = 01h`, or without, `AH = 08h`)
whose console input byte is the line feed `0x0A` returns `0x0D` in
`AL`; in the with-echo variant the byte echoed to the console is the
returned post-normalization value, so a line feed is never echoed. -/
theorem c8_lf_to_cr (fuel : Nat) (env : Env) (s : Session) (r0 : I386Regs)
    (hah : ah r0 = 0x01 ∨ ah r0 = 0x08)
    (hin : env.consoleIn.headD 0 = 0x0A) :
    ∃ rr, int21 fuel env s r0 =
        ⟨Outcome.ret rr, s, if ah r0 = 0x01 then [Event.putchar (al rr)] else [], true⟩ ∧
      al rr = 0x0D := by
  have h1 : ¬(ah r0 = 0x00 ∨ ah r0 = 0x4C) := by rcases hah with h | h <;> simp [h]
  cases hcl : env.consoleIn with
  | nil => rw [hcl] at hin; simp at hin
  | cons c t =>
    rw [hcl] at hin
    simp at hin
    refine ⟨clearCF (setAl (setAl (setCF r0) 0x0A) 0x0D), ?_, by simp⟩
    simp [int21, h1, hah, hcl, hin]

/-- Witness for `c8_lf_to_cr`: `AH = 01h`, console input `0x0A`. -/
theorem c8_lf_to_cr_witness :
    (ah ⟨0x0100, 0, 0, 0, 0, 0, 0, 0, 0, 0⟩ = 0x01 ∨
      ah ⟨0x0100, 0, 0, 0, 0, 0, 0, 0, 0, 0⟩ = 0x08) ∧
    ([(0x0A : Nat)].headD 0 = 0x0A) ∧
    ∃ rr, int21 1 ⟨fun _ => 0, [0x0A], false, 0, 0, 0, 0, ⟨true, 0, true, 0, 0, 0⟩⟩ ⟨0, none⟩
        ⟨0x0100, 0, 0, 0, 0, 0, 0, 0, 0, 0⟩ =
        ⟨Outcome.ret rr, ⟨0, none⟩,
          if ah ⟨0x0100, 0, 0, 0, 0, 0, 0, 0, 0, 0⟩ = 0x01
          then [Event.putchar (al rr)] else [], true⟩ ∧
      al rr = 0x0D :=
  ⟨Or.inl rfl, rfl,
    c8_lf_to_cr 1 ⟨fun _ => 0, [0x0A], false, 0, 0, 0, 0, ⟨true, 0, true, 0, 0, 0⟩⟩
      ⟨0, none⟩ ⟨0x0100, 0, 0, 0, 0, 0, 0, 0, 0, 0⟩ (Or.inl rfl) rfl⟩

/-! ## Claim C10: Open File with an empty path is rejected untouched -/

/-- C10: an Open File call whose caller-supplied path string is empty
(first byte NUL) returns with the carry flag left set, without invoking
the external open service (no open event), without touching the
session, and with every register other than the carry bit exactly as on
entry — in particular the handle (`SI`), block-size (`CX`) and
file-size (`EAX`) registers. -/
theorem c10_open_empty_path (fuel : Nat) (env : Env) (s : Session)
    (r0 : I386Regs) (hax : ax r0 = 0x0006)
    (hm : env.mem (flatAddr r0.es (si r0)) % 256 = 0) :
    int22 (fuel + 1) env s r0 = ⟨Outcome.ret (setCF r0), s, [], true⟩ := by
  simp [int22, hax, strlenU, hm, readMemList,
    show List.range 1 = [0] by decide]

/-- Witness for `c10_open_empty_path`: memory holding only NUL bytes. -/
theorem c10_open_empty_path_witness :
    ax ⟨0x0006, 0, 0, 0, 0, 0, 0, 0, 0, 0⟩ = 0x0006 ∧
    ((fun _ => 0) : Nat → Nat) (flatAddr 0 0) % 256 = 0 ∧
    int22 1 ⟨fun _ => 0, [], false, 0, 0, 0, 0, ⟨true, 0, true, 0, 0, 0⟩⟩ ⟨0, none⟩
        ⟨0x0006, 0, 0, 0, 0, 0, 0, 0, 0, 0⟩ =
      ⟨Outcome.ret (setCF ⟨0x0006, 0, 0, 0, 0, 0, 0, 0, 0, 0⟩), ⟨0, none⟩, [], true⟩ :=
  ⟨rfl, rfl,
    c10_open_empty_path 0 ⟨fun _ => 0, [], false, 0, 0, 0, 0, ⟨true, 0, true, 0, 0, 0⟩⟩
      ⟨0, none⟩ ⟨0x0006, 0, 0, 0, 0, 0, 0, 0, 0, 0⟩ rfl rfl⟩

/-! ## Claim C5: initrd extraction restores the command line -/

/-- The bytes of `"console=ttyS0 initrd=boot/initrd.img root=/dev/ram"`. -/
def c5cmdline : List Nat :=
  [99, 111, 110, 115, 111, 108, 101, 61, 116, 116, 121, 83, 48, 32,
   105, 110, 105, 116, 114, 100, 61, 98, 111, 111, 116, 47, 105, 110,
   105, 116, 114, 100, 46, 105, 109, 103, 32, 114, 111, 111, 116, 61,
   47, 100, 101, 118, 47, 114, 97, 109]

/-- The bytes of `"boot/initrd.img"`. -/
def c5initrdPath : List Nat :=
  [98, 111, 111, 116, 47, 105, 110, 105, 116, 114, 100, 46, 105, 109, 103]

/-- The bytes of a kernel path, `"vmlinuz"`. -/
def c5kernel : List Nat := [118, 109, 108, 105, 110, 117, 122]

/-- The command-line strings handed to `image_set_cmdline` in a trace. -/
def setCmdlineArgs (evs : List Event) : List (List Nat) :=
  evs.filterMap (fun e =>
    match e with
    | Event.imageSetCmdline cl => some cl
    | _ => none)

/-- C5: on the command line
`"console=ttyS0 initrd=boot/initrd.img root=/dev/ram"`, in every
environment in which the initrd allocation and fetch and the kernel
allocation succeed, the initrd path fetched is exactly
`"boot/initrd.img"` (the token after `initrd=` up to the space), the
kernel fetch observes the command-line buffer restored to its original
contents (the space after the initrd path included), every
`image_set_cmdline` call passes the original command line, and the
buffer is unchanged on return. -/
theorem c5_initrd_extraction (fenv : FetchEnv) (repl : Option Nat)
    (hA : fenv.allocInitrdOk = true) (hB : fenv.fetchInitrdRc = 0)
    (hC : fenv.allocKernelOk = true) :
    (comboot_fetch_kernel fenv repl c5kernel c5cmdline).events.take 2 =
      [Event.imgFetchInitrd c5initrdPath, Event.imgFetchKernel c5kernel c5cmdline] ∧
    (∀ cl ∈ setCmdlineArgs (comboot_fetch_kernel fenv repl c5kernel c5cmdline).events,
      cl = c5cmdline) ∧
    (comboot_fetch_kernel fenv repl c5kernel c5cmdline).buffer = c5cmdline := by
  have e1 : strstrIdx initrdTag c5cmdline = some 14 := by decide
  have e2 : strchrIdx 32 c5cmdline (14 + 7) = some 36 := by decide
  have e3 : cStr ((c5cmdline.set 36 0).drop (14 + 7)) = c5initrdPath := by decide
  have e4 : (c5cmdline.set 36 0).set 36 32 = c5cmdline := by decide
  have e5 : cStr c5kernel = c5kernel := by decide
  have e6 : cStr c5cmdline = c5cmdline := by decide
  by_cases h4 : fenv.fetchKernelRc = 0 <;> by_cases h5 : fenv.setCmdlineRc = 0 <;>
    simp [comboot_fetch_kernel, comboot_fetch_kernel_tail, e1, e2, e3, e4, e5, e6,
      hA, hB, hC, h4, h5, setCmdlineArgs]

/-- Witness for `c5_initrd_extraction`: the all-success environment. -/
theorem c5_initrd_extraction_witness :
    (⟨true, 0, true, 0, 0, 9⟩ : FetchEnv).allocInitrdOk = true ∧
    (⟨true, 0, true, 0, 0, 9⟩ : FetchEnv).fetchInitrdRc = 0 ∧
    (⟨true, 0, true, 0, 0, 9⟩ : FetchEnv).allocKernelOk = true ∧
    ((comboot_fetch_kernel ⟨true, 0, true, 0, 0, 9⟩ none c5kernel c5cmdline).events.take 2 =
      [Event.imgFetchInitrd c5initrdPath, Event.imgFetchKernel c5kernel c5cmdline] ∧
    (∀ cl ∈ setCmdlineArgs
        (comboot_fetch_kernel ⟨true, 0, true, 0, 0, 9⟩ none c5kernel c5cmdline).events,
      cl = c5cmdline) ∧
    (comboot_fetch_kernel ⟨true, 0, true, 0, 0, 9⟩ none c5kernel c5cmdline).buffer =
      c5cmdline) :=
  ⟨rfl, rfl, rfl, c5_initrd_extraction ⟨true, 0, true, 0, 0, 9⟩ none rfl rfl rfl⟩

/-! ## Claim C6: the replacement image is set at most once -/

/-- The kernel half of the fetch: the replacement image changes only on
the fully successful path (`rc = 0`), it is then set to the fetched
kernel, and the `assert ( comboot_replacement_image == NULL )`
immediately before the store holds exactly when the field was empty. -/
theorem fetch_tail_set_once (env : FetchEnv) (repl : Option Nat)
    (kf buf : List Nat) (evs : List Event) :
    ((comboot_fetch_kernel_tail env repl kf buf evs).replacement ≠ repl →
      (comboot_fetch_kernel_tail env repl kf buf evs).rc = 0) ∧
    ((comboot_fetch_kernel_tail env repl kf buf evs).rc = 0 →
      (comboot_fetch_kernel_tail env repl kf buf evs).replacement = some env.kernelId ∧
      ((comboot_fetch_kernel_tail env repl kf buf evs).assertOk = true ↔ repl = none)) := by
  unfold comboot_fetch_kernel_tail
  split_ifs <;> simp_all [enomem, Option.isNone_iff_eq_none]

/-- C6: the replacement-image field transitions at most once from empty
to set per session.  Across one `comboot_fetch_kernel` call it changes
only when the whole fetch succeeded (`rc = 0`); on success it is set to
the fetched kernel image, and the assertion that the field was empty
immediately before the store holds exactly when it was empty on entry —
so a second successful Run Kernel Image in the same session is a
contract violation (a failed assert), not a silent overwrite.  Moreover
no DOS-handler operation and no SYSLINUX-handler operation other than
Run Kernel Image (`AX = 0016h`) ever changes the field. -/
theorem c6_replacement_set_once :
    (∀ (fenv : FetchEnv) (repl : Option Nat) (kernel_file cmdline : List Nat),
      ((comboot_fetch_kernel fenv repl kernel_file cmdline).replacement ≠ repl →
        (comboot_fetch_kernel fenv repl kernel_file cmdline).rc = 0) ∧
      ((comboot_fetch_kernel fenv repl kernel_file cmdline).rc = 0 →
        (comboot_fetch_kernel fenv repl kernel_file cmdline).replacement =
          some fenv.kernelId ∧
        ((comboot_fetch_kernel fenv repl kernel_file cmdline).assertOk = true ↔
          repl = none))) ∧
    (∀ (fuel : Nat) (env : Env) (s : Session) (r0 : I386Regs),
      (int21 fuel env s r0).sess = s) ∧
    (∀ (fuel : Nat) (env : Env) (s : Session) (r0 : I386Regs),
      ax r0 ≠ 0x0016 → (int22 fuel env s r0).sess.replacement = s.replacement) := by
  refine ⟨fun fenv repl kernel_file cmdline => ?_,
    fun fuel env s r0 => ?_, fun fuel env s r0 h => ?_⟩
  case refine_2 =>
    unfold int21
    dsimp only
    repeat' split
    all_goals rfl
  case refine_3 =>
    have hx : ax (setCF r0) ≠ 0x0016 := by simpa using h
    unfold int22
    dsimp only
    by_cases h1 : ax (setCF r0) = 0x0001
    · rw [if_pos h1]
    rw [if_neg h1]
    by_cases h2 : ax (setCF r0) = 0x0002
    · rw [if_pos h2]
      cases printUserString fuel env.mem (flatAddr (setCF r0).es (bx (setCF r0))) 0 <;> rfl
    rw [if_neg h2]
    by_cases h3 : ax (setCF r0) = 0x0003
    · rw [if_pos h3]
      cases strlenU fuel env.mem (flatAddr (setCF r0).es (bx (setCF r0))) <;> rfl
    rw [if_neg h3]
    by_cases h4 : ax (setCF r0) = 0x0004
    · rw [if_pos h4]
    rw [if_neg h4]
    by_cases h5 : ax (setCF r0) = 0x0005
    · rw [if_pos h5]
    rw [if_neg h5]
    by_cases h6 : ax (setCF r0) = 0x0006
    · rw [if_pos h6]
      cases strlenU fuel env.mem (flatAddr (setCF r0).es (si (setCF r0))) <;>
        (repeat' split) <;> rfl
    rw [if_neg h6]
    by_cases h7 : ax (setCF r0) = 0x0007
    · rw [if_pos h7]
      split <;> rfl
    rw [if_neg h7]
    by_cases h8 : ax (setCF r0) = 0x0008
    · rw [if_pos h8]
    rw [if_neg h8]
    by_cases h9 : ax (setCF r0) = 0x0009
    · rw [if_pos h9]
    rw [if_neg h9]
    by_cases h10 : ax (setCF r0) = 0x000A
    · rw [if_pos h10]
    rw [if_neg h10]
    by_cases h11 : ax (setCF r0) = 0x000B
    · rw [if_pos h11]
    rw [if_neg h11]
    by_cases h12 : ax (setCF r0) = 0x000E
    · rw [if_pos h12]
    rw [if_neg h12]
    by_cases h13 : ax (setCF r0) = 0x000F
    · rw [if_pos h13]
    rw [if_neg h13]
    by_cases h14 : ax (setCF r0) = 0x0010
    · rw [if_pos h14]
      cases strlenU fuel env.mem (flatAddr (setCF r0).es (bx (setCF r0))) <;> rfl
    rw [if_neg h14]
    by_cases h15 : ax (setCF r0) = 0x0011
    · rw [if_pos h15]
    rw [if_neg h15]
    by_cases h16 : ax (setCF r0) = 0x0012
    · rw [if_pos h16]
      split <;> rfl
    rw [if_neg h16]
    by_cases h17 : ax (setCF r0) = 0x0013
    · rw [if_pos h17]
    rw [if_neg h17]
    by_cases h18 : ax (setCF r0) = 0x0015
    · rw [if_pos h18]
    rw [if_neg h18]
    rw [if_neg hx]
    by_cases h19 : ax (setCF r0) = 0x0017
    · rw [if_pos h19]
    rw [if_neg h19]
    by_cases h20 : ax (setCF r0) = 0x0018
    · rw [if_pos h20]
    rw [if_neg h20]
  unfold comboot_fetch_kernel
  cases hs : strstrIdx initrdTag cmdline with
  | none => exact fetch_tail_set_once fenv repl kernel_file cmdline []
  | some idx =>
    cases hc : strchrIdx 32 cmdline (idx + 7) with
    | some j =>
      by_cases h1 : fenv.allocInitrdOk = false
      · simp [hc, h1, enomem]
      · by_cases h2 : fenv.fetchInitrdRc = 0
        · simpa [hc, h1, h2] using
            fetch_tail_set_once fenv repl kernel_file ((cmdline.set j 0).set j 32)
              [Event.imgFetchInitrd (cStr ((cmdline.set j 0).drop (idx + 7)))]
        · simp [hc, h1, h2]
    | none =>
      by_cases h1 : fenv.allocInitrdOk = false
      · simp [hc, h1, enomem]
      · by_cases h2 : fenv.fetchInitrdRc = 0
        · simpa [hc, h1, h2] using
            fetch_tail_set_once fenv repl kernel_file cmdline
              [Event.imgFetchInitrd (cStr (cmdline.drop (idx + 7)))]
        · simp [hc, h1, h2]

/-- Witness for `c6_replacement_set_once`: an all-success environment
with the replacement field already set on entry. -/
theorem c6_replacement_set_once_witness :
    ((comboot_fetch_kernel ⟨true, 0, true, 0, 0, 9⟩ (some 5) c5kernel c5cmdline).replacement ≠
        some 5 →
      (comboot_fetch_kernel ⟨true, 0, true, 0, 0, 9⟩ (some 5) c5kernel c5cmdline).rc = 0) ∧
    ((comboot_fetch_kernel ⟨true, 0, true, 0, 0, 9⟩ (some 5) c5kernel c5cmdline).rc = 0 →
      (comboot_fetch_kernel ⟨true, 0, true, 0, 0, 9⟩ (some 5) c5kernel
          c5cmdline).replacement = some 9 ∧
      ((comboot_fetch_kernel ⟨true, 0, true, 0, 0, 9⟩ (some 5) c5kernel
          c5cmdline).assertOk = true ↔ (some 5 : Option Nat) = none)) ∧
    (int21 1 ⟨fun _ => 0, [], false, 0, 0, 0, 0, ⟨true, 0, true, 0, 0, 0⟩⟩ ⟨0, some 5⟩
      ⟨0, 0, 0, 0, 0, 0, 0, 0, 0, 0⟩).sess = ⟨0, some 5⟩ ∧
    (int22 1 ⟨fun _ => 0, [], false, 0, 0, 0, 0, ⟨true, 0, true, 0, 0, 0⟩⟩ ⟨0, some 5⟩
      ⟨0, 0, 0, 0, 0, 0, 0, 0, 0, 0⟩).sess.replacement = (some 5 : Option Nat) :=
  ⟨(c6_replacement_set_once.1 ⟨true, 0, true, 0, 0, 9⟩ (some 5) c5kernel c5cmdline).1,
    (c6_replacement_set_once.1 ⟨true, 0, true, 0, 0, 9⟩ (some 5) c5kernel c5cmdline).2,
    c6_replacement_set_once.2.1 1 ⟨fun _ => 0, [], false, 0, 0, 0, 0, ⟨true, 0, true, 0, 0, 0⟩⟩
      ⟨0, some 5⟩ ⟨0, 0, 0, 0, 0, 0, 0, 0, 0, 0⟩,
    c6_replacement_set_once.2.2 1 ⟨fun _ => 0, [], false, 0, 0, 0, 0, ⟨true, 0, true, 0, 0, 0⟩⟩
      ⟨0, some 5⟩ ⟨0, 0, 0, 0, 0, 0, 0, 0, 0, 0⟩ (by decide)⟩

/-! ## Claim C9: the resolve-hostname copy overruns its buffer -/

/-- C9 (evidence for the code bug): the resolve-hostname handler
declares `char hostname[len]` but copies `len + 1` bytes into it, so
the copy writes the byte index `len`, one past the declared capacity —
already for the one-byte hostname `"a"` (`len = 1`) the copy writes
indices 0 and 1 into a buffer of capacity 1, and in general the copy
always writes exactly one byte out of bounds, contradicting the claim
that every written index is within bounds. -/
theorem c9_hostname_copy_overflow :
    hostnameCopyLen 1 = 2 ∧ hostnameBufCapacity 1 = 1 ∧
    ¬ (∀ i < hostnameCopyLen 1, i < hostnameBufCapacity 1) ∧
    ∀ len : Nat, hostnameBufCapacity len < hostnameCopyLen len :=
  ⟨rfl, rfl, by decide, fun len => Nat.lt_succ_self len⟩

end Comboot
